import Mathlib

/-!
Verification of the Nexalyze analysis pipeline core against its source.

Shallow embedding conventions:
* Python floats are modelled as exact rationals (`ℚ`).
* Python `word in text` (substring membership) is modelled on character lists.
* Fallible external calls (news search, LLM calls, file loading, chart and
  report rendering) are modelled as `Except String` oracle values; in-repo
  pure logic is translated directly.
-/

namespace Nexalyze

/-- Python `text.lower()` as a character list (ASCII lowering, which is
what the analysed inputs use). -/
def lowerChars (s : String) : List Char :=
  s.toList.map Char.toLower

/-- Python `pat in text` substring test, on character lists. -/
def containsSub (text : List Char) (pat : String) : Bool :=
  decide (pat.toList <:+: text)

/-! ## Sentiment data model (src/app/ml/sentiment_ml.py) -/

/-- Result dictionary produced by `SentimentMLModel` predictions:
keys positive / negative / neutral / label / confidence. -/
structure SentimentResult where
  positive : ℚ
  negative : ℚ
  neutral : ℚ
  label : String
  confidence : ℚ
deriving Repr, DecidableEq

/-- `positive_words` list of `SentimentMLModel._lexicon_fallback`
(src/app/ml/sentiment_ml.py lines 105-120). -/
def positive_words : List String :=
  ["success", "successful", "growth", "growing", "expansion", "increase", "rising", "gains",
   "profit", "revenue", "milestone", "achievement", "breakthrough", "innovation", "progress",
   "improvement", "advance", "boost", "surge", "soar", "record", "peak", "high",
   "excellent", "outstanding", "exceptional", "impressive", "strong", "robust", "solid",
   "good", "great", "positive", "optimistic", "confident", "favorable", "promising",
   "effective", "efficient", "productive", "valuable", "beneficial", "advantage",
   "development", "investment", "funding", "capital", "initiative", "launch", "unveil",
   "opportunity", "potential", "prospects", "momentum", "confidence", "optimism",
   "modernization", "upgrade", "enhancement", "improvement", "infrastructure", "facilities",
   "connectivity", "accessibility", "sustainable", "green", "clean", "eco-friendly"]

/-- `negative_words` list of `SentimentMLModel._lexicon_fallback`
(src/app/ml/sentiment_ml.py lines 122-135). -/
def negative_words : List String :=
  ["decline", "decrease", "fall", "drop", "plunge", "crash", "collapse", "failure",
   "loss", "losses", "deficit", "debt", "crisis", "recession", "downturn", "slump",
   "weak", "poor", "disappointing", "missed", "below", "underperform",
   "concern", "concerns", "worry", "worries", "risk", "risks", "threat", "challenge",
   "problem", "problems", "issue", "issues", "difficulty", "struggle", "setback",
   "delay", "postpone", "cancel", "suspend", "halt", "stop",
   "pollution", "congestion", "corruption", "scandal", "controversy", "violation",
   "shortage", "scarcity", "crisis", "emergency", "disaster", "damage",
   "bad", "terrible", "awful", "horrible", "worst", "negative", "criticism"]

/-- `neutral_modifiers` list of `SentimentMLModel._lexicon_fallback`
(src/app/ml/sentiment_ml.py lines 137-142). -/
def neutral_modifiers : List String :=
  ["mixed", "varied", "stable", "steady", "unchanged", "maintained", "continued",
   "moderate", "gradual", "cautious", "awaiting", "expected", "projected",
   "analysts", "experts", "officials", "sources", "reports", "according"]

/-- Word counts of `_lexicon_fallback` after the contextual adjustments
(src/app/ml/sentiment_ml.py lines 144-158): occurrence counts of the three
lexicons in the lower-cased text, then +2 neutral on contrastive markers,
+2 positive on record-high/growth co-occurrence, +1 negative on
market-downturn phrases.  Returned as (pos_count, neg_count, neutral_count). -/
def lexCounts (text : String) : ℕ × ℕ × ℕ :=
  let tl := lowerChars text
  let pos0 := positive_words.countP (fun w => containsSub tl w)
  let neg0 := negative_words.countP (fun w => containsSub tl w)
  let neu0 := neutral_modifiers.countP (fun w => containsSub tl w)
  let neu1 := if containsSub tl "despite" || containsSub tl "however" || containsSub tl "but"
              then neu0 + 2 else neu0
  let pos1 := if containsSub tl "record" && (containsSub tl "high" || containsSub tl "growth")
              then pos0 + 2 else pos0
  let neg1 := if containsSub tl "sharp correction" || containsSub tl "profit-taking"
              then neg0 + 1 else neg0
  (pos1, neg1, neu1)

/-- `total = max(pos_count + neg_count + neutral_count, 1)` of
`_lexicon_fallback` (src/app/ml/sentiment_ml.py line 161), as a rational. -/
def lexTotal (pc nc uc : ℕ) : ℚ :=
  ((max (pc + nc + uc) 1 : ℕ) : ℚ)

/-- The pre-normalization probability triple of `_lexicon_fallback`
(src/app/ml/sentiment_ml.py lines 163-165): each count divided by
`max(total, 1)`, then a 0.10 floor on the neutral probability.
Returned as (pos_prob, neg_prob, neutral_prob). -/
def lexPre (pc nc uc : ℕ) : ℚ × ℚ × ℚ :=
  ((pc : ℚ) / lexTotal pc nc uc,
   (nc : ℚ) / lexTotal pc nc uc,
   max ((uc : ℚ) / lexTotal pc nc uc) (1/10))

/-- `total_prob` of `_lexicon_fallback` (src/app/ml/sentiment_ml.py
line 168): the sum of the pre-normalization triple. -/
def lexSum (pc nc uc : ℕ) : ℚ :=
  (lexPre pc nc uc).1 + (lexPre pc nc uc).2.1 + (lexPre pc nc uc).2.2

/-- The normalized probability triple of `_lexicon_fallback`
(src/app/ml/sentiment_ml.py lines 167-175): renormalize the
pre-normalization triple to sum to 1 when its sum is positive,
else default to (0.33, 0.33, 0.34). -/
def lexProbs (pc nc uc : ℕ) : ℚ × ℚ × ℚ :=
  if 0 < lexSum pc nc uc then
    ((lexPre pc nc uc).1 / lexSum pc nc uc,
     (lexPre pc nc uc).2.1 / lexSum pc nc uc,
     (lexPre pc nc uc).2.2 / lexSum pc nc uc)
  else
    (33/100, 33/100, 34/100)

/-- The result of `_lexicon_fallback` as a function of the adjusted counts
(src/app/ml/sentiment_ml.py lines 160-192): probabilities, then label by
comparing each probability against the maximum — positive first, then
negative, else neutral — and confidence equal to the maximum. -/
def lexResult (pc nc uc : ℕ) : SentimentResult :=
  { positive := (lexProbs pc nc uc).1
    negative := (lexProbs pc nc uc).2.1
    neutral := (lexProbs pc nc uc).2.2
    label :=
      if (lexProbs pc nc uc).1 =
          max (lexProbs pc nc uc).1 (max (lexProbs pc nc uc).2.1 (lexProbs pc nc uc).2.2)
      then "positive"
      else if (lexProbs pc nc uc).2.1 =
          max (lexProbs pc nc uc).1 (max (lexProbs pc nc uc).2.1 (lexProbs pc nc uc).2.2)
      then "negative"
      else "neutral"
    confidence :=
      max (lexProbs pc nc uc).1 (max (lexProbs pc nc uc).2.1 (lexProbs pc nc uc).2.2) }

/-- `SentimentMLModel._lexicon_fallback` (src/app/ml/sentiment_ml.py
lines 100-192): adjusted lexicon counts of the text, then `lexResult`. -/
def lexicon_fallback (text : String) : SentimentResult :=
  lexResult (lexCounts text).1 (lexCounts text).2.1 (lexCounts text).2.2

/-! ### General lemmas about the lexicon fallback -/

theorem lexTotal_pos (pc nc uc : ℕ) : 0 < lexTotal pc nc uc := by
  have h : (1 : ℕ) ≤ max (pc + nc + uc) 1 := le_max_right _ _
  have : (0 : ℕ) < max (pc + nc + uc) 1 := lt_of_lt_of_le Nat.zero_lt_one h
  unfold lexTotal
  exact_mod_cast this

theorem lexPre_pos_nonneg (pc nc uc : ℕ) : 0 ≤ (lexPre pc nc uc).1 :=
  div_nonneg (Nat.cast_nonneg _) (le_of_lt (lexTotal_pos pc nc uc))

theorem lexPre_neg_nonneg (pc nc uc : ℕ) : 0 ≤ (lexPre pc nc uc).2.1 :=
  div_nonneg (Nat.cast_nonneg _) (le_of_lt (lexTotal_pos pc nc uc))

theorem lexPre_neutral_floor (pc nc uc : ℕ) : 1/10 ≤ (lexPre pc nc uc).2.2 :=
  le_max_right _ _

theorem lexSum_pos (pc nc uc : ℕ) : 0 < lexSum pc nc uc := by
  have h1 := lexPre_pos_nonneg pc nc uc
  have h2 := lexPre_neg_nonneg pc nc uc
  have h3 := lexPre_neutral_floor pc nc uc
  have : (0 : ℚ) < 1/10 := by norm_num
  unfold lexSum
  linarith

/-- The guard `total_prob > 0` always holds, so `lexProbs` always takes the
renormalization branch. -/
theorem lexProbs_eq_normalized (pc nc uc : ℕ) :
    lexProbs pc nc uc =
      ((lexPre pc nc uc).1 / lexSum pc nc uc,
       (lexPre pc nc uc).2.1 / lexSum pc nc uc,
       (lexPre pc nc uc).2.2 / lexSum pc nc uc) := by
  unfold lexProbs
  exact if_pos (lexSum_pos pc nc uc)

theorem lexProbs_nonneg (pc nc uc : ℕ) :
    0 ≤ (lexProbs pc nc uc).1 ∧ 0 ≤ (lexProbs pc nc uc).2.1 ∧
      0 ≤ (lexProbs pc nc uc).2.2 := by
  rw [lexProbs_eq_normalized]
  have hs := le_of_lt (lexSum_pos pc nc uc)
  have h3 : (0:ℚ) ≤ (lexPre pc nc uc).2.2 :=
    le_trans (by norm_num) (lexPre_neutral_floor pc nc uc)
  exact ⟨div_nonneg (lexPre_pos_nonneg pc nc uc) hs,
         div_nonneg (lexPre_neg_nonneg pc nc uc) hs,
         div_nonneg h3 hs⟩

theorem lexProbs_le_one (pc nc uc : ℕ) :
    (lexProbs pc nc uc).1 ≤ 1 ∧ (lexProbs pc nc uc).2.1 ≤ 1 ∧
      (lexProbs pc nc uc).2.2 ≤ 1 := by
  rw [lexProbs_eq_normalized]
  have hs := lexSum_pos pc nc uc
  have h1 := lexPre_pos_nonneg pc nc uc
  have h2 := lexPre_neg_nonneg pc nc uc
  have h3 : (0:ℚ) ≤ (lexPre pc nc uc).2.2 :=
    le_trans (by norm_num) (lexPre_neutral_floor pc nc uc)
  refine ⟨(div_le_one hs).mpr ?_, (div_le_one hs).mpr ?_, (div_le_one hs).mpr ?_⟩ <;>
    · unfold lexSum; linarith

theorem lexProbs_sum_one (pc nc uc : ℕ) :
    (lexProbs pc nc uc).1 + (lexProbs pc nc uc).2.1 + (lexProbs pc nc uc).2.2 = 1 := by
  rw [lexProbs_eq_normalized]
  have hs := (lexSum_pos pc nc uc).ne'
  show (lexPre pc nc uc).1 / lexSum pc nc uc + (lexPre pc nc uc).2.1 / lexSum pc nc uc +
      (lexPre pc nc uc).2.2 / lexSum pc nc uc = 1
  rw [div_add_div_same, div_add_div_same]
  have he : (lexPre pc nc uc).1 + (lexPre pc nc uc).2.1 + (lexPre pc nc uc).2.2 =
      lexSum pc nc uc := rfl
  rw [he]
  exact div_self hs

theorem max_three_eq_left_iff (a b c : ℚ) : a = max a (max b c) ↔ b ≤ a ∧ c ≤ a := by
  rw [eq_comm, max_eq_left_iff, max_le_iff]

theorem max_three_eq_mid_iff (a b c : ℚ) : b = max a (max b c) ↔ a ≤ b ∧ c ≤ b := by
  constructor
  · intro h
    constructor
    · rw [h]; exact le_max_left _ _
    · rw [h]; exact le_trans (le_max_right b c) (le_max_right a _)
  · rintro ⟨h1, h2⟩
    rw [max_eq_left h2, max_eq_right h1]

/-- Bundle of the distributional properties of `lexResult`. -/
theorem lexResult_spec (pc nc uc : ℕ) :
    (0 ≤ (lexResult pc nc uc).positive ∧ (lexResult pc nc uc).positive ≤ 1) ∧
    (0 ≤ (lexResult pc nc uc).negative ∧ (lexResult pc nc uc).negative ≤ 1) ∧
    (0 ≤ (lexResult pc nc uc).neutral ∧ (lexResult pc nc uc).neutral ≤ 1) ∧
    (lexResult pc nc uc).positive + (lexResult pc nc uc).negative +
      (lexResult pc nc uc).neutral = 1 ∧
    (lexResult pc nc uc).confidence =
      max (lexResult pc nc uc).positive
        (max (lexResult pc nc uc).negative (lexResult pc nc uc).neutral) ∧
    (lexResult pc nc uc).label =
      (if (lexResult pc nc uc).negative ≤ (lexResult pc nc uc).positive ∧
          (lexResult pc nc uc).neutral ≤ (lexResult pc nc uc).positive then "positive"
       else if (lexResult pc nc uc).positive ≤ (lexResult pc nc uc).negative ∧
          (lexResult pc nc uc).neutral ≤ (lexResult pc nc uc).negative then "negative"
       else "neutral") := by
  obtain ⟨n1, n2, n3⟩ := lexProbs_nonneg pc nc uc
  obtain ⟨u1, u2, u3⟩ := lexProbs_le_one pc nc uc
  refine ⟨⟨n1, u1⟩, ⟨n2, u2⟩, ⟨n3, u3⟩, lexProbs_sum_one pc nc uc, rfl, ?_⟩
  show (if (lexProbs pc nc uc).1 =
          max (lexProbs pc nc uc).1 (max (lexProbs pc nc uc).2.1 (lexProbs pc nc uc).2.2)
        then "positive"
        else if (lexProbs pc nc uc).2.1 =
          max (lexProbs pc nc uc).1 (max (lexProbs pc nc uc).2.1 (lexProbs pc nc uc).2.2)
        then "negative" else "neutral") =
      (if (lexProbs pc nc uc).2.1 ≤ (lexProbs pc nc uc).1 ∧
          (lexProbs pc nc uc).2.2 ≤ (lexProbs pc nc uc).1 then "positive"
       else if (lexProbs pc nc uc).1 ≤ (lexProbs pc nc uc).2.1 ∧
          (lexProbs pc nc uc).2.2 ≤ (lexProbs pc nc uc).2.1 then "negative"
       else "neutral")
  exact if_congr (max_three_eq_left_iff _ _ _) rfl
    (if_congr (max_three_eq_mid_iff _ _ _) rfl rfl)

/-- With all adjusted counts zero the floor forces (0, 0, 1). -/
theorem lexResult_zero : lexResult 0 0 0 = ⟨0, 0, 1, "neutral", 1⟩ := by
  have hp : lexProbs 0 0 0 = (0, 0, 1) := by
    rw [lexProbs_eq_normalized]
    norm_num [lexPre, lexSum, lexTotal]
  unfold lexResult
  rw [hp]
  norm_num

/-- Claim C2, amended: for every text the lexicon fallback returns positive,
neutral and negative probabilities each in [0,1] summing exactly to 1 (hence
within 1e-6), with the neutral probability floored at 0.10 before
renormalization, label equal to the argmax with ties resolved positive >
negative > neutral, and confidence equal to the maximum probability; when the
raw sum of the adjusted counts is zero the result is positive 0, negative 0,
neutral 1 — not the 0.33/0.33/0.34 default, which is unreachable. -/
theorem claim_C2_lexicon_distribution (text : String) :
    (0 ≤ (lexicon_fallback text).positive ∧ (lexicon_fallback text).positive ≤ 1) ∧
    (0 ≤ (lexicon_fallback text).negative ∧ (lexicon_fallback text).negative ≤ 1) ∧
    (0 ≤ (lexicon_fallback text).neutral ∧ (lexicon_fallback text).neutral ≤ 1) ∧
    (lexicon_fallback text).positive + (lexicon_fallback text).negative +
      (lexicon_fallback text).neutral = 1 ∧
    1/10 ≤ (lexPre (lexCounts text).1 (lexCounts text).2.1 (lexCounts text).2.2).2.2 ∧
    (lexicon_fallback text).confidence =
      max (lexicon_fallback text).positive
        (max (lexicon_fallback text).negative (lexicon_fallback text).neutral) ∧
    (lexicon_fallback text).label =
      (if (lexicon_fallback text).negative ≤ (lexicon_fallback text).positive ∧
          (lexicon_fallback text).neutral ≤ (lexicon_fallback text).positive
       then "positive"
       else if (lexicon_fallback text).positive ≤ (lexicon_fallback text).negative ∧
          (lexicon_fallback text).neutral ≤ (lexicon_fallback text).negative
       then "negative"
       else "neutral") ∧
    ((lexCounts text).1 + (lexCounts text).2.1 + (lexCounts text).2.2 = 0 →
      lexicon_fallback text = ⟨0, 0, 1, "neutral", 1⟩) := by
  obtain ⟨hp, hn, hu, hsum, hconf, hlabel⟩ :=
    lexResult_spec (lexCounts text).1 (lexCounts text).2.1 (lexCounts text).2.2
  refine ⟨hp, hn, hu, hsum,
    lexPre_neutral_floor (lexCounts text).1 (lexCounts text).2.1 (lexCounts text).2.2,
    hconf, hlabel, ?_⟩
  intro hzero
  obtain ⟨h1, h2, h3⟩ : (lexCounts text).1 = 0 ∧ (lexCounts text).2.1 = 0 ∧
      (lexCounts text).2.2 = 0 := by omega
  show lexResult (lexCounts text).1 (lexCounts text).2.1 (lexCounts text).2.2 = _
  rw [h1, h2, h3]
  exact lexResult_zero

theorem claim_C2_lexicon_distribution_witness :
    lexicon_fallback "" = ⟨0, 0, 1, "neutral", 1⟩ :=
  (claim_C2_lexicon_distribution "").2.2.2.2.2.2.2 (by decide)

/-- Claim C2, counterexample to the default clause as stated: the empty text
has raw count sum zero, yet the fallback returns the distribution (0, 0, 1)
with neutral probability 1, not the claimed 0.33/0.33/0.34 default. -/
theorem claim_C2_counterexample :
    (lexCounts "").1 + (lexCounts "").2.1 + (lexCounts "").2.2 = 0 ∧
    lexicon_fallback "" = ⟨0, 0, 1, "neutral", 1⟩ ∧
    ((1 : ℚ) ≠ 34/100) := by
  refine ⟨by decide, ?_, by norm_num⟩
  have h : lexCounts "" = (0, 0, 0) := by decide
  show lexResult (lexCounts "").1 (lexCounts "").2.1 (lexCounts "").2.2 = _
  rw [h]
  exact lexResult_zero

/-- Claim C10: the renormalization denominator of the lexicon fallback is
always at least 0.1 (the neutral floor), so the 0.33/0.33/0.34 default branch
is unreachable — `lexProbs` always returns the normalized triple — and a text
matching no lexicon word and no contextual pattern returns exactly positive 0,
negative 0, neutral 1, label "neutral", confidence 1. -/
theorem claim_C10_default_unreachable :
    (∀ pc nc uc : ℕ, 1/10 ≤ lexSum pc nc uc) ∧
    (∀ pc nc uc : ℕ, lexProbs pc nc uc =
      ((lexPre pc nc uc).1 / lexSum pc nc uc,
       (lexPre pc nc uc).2.1 / lexSum pc nc uc,
       (lexPre pc nc uc).2.2 / lexSum pc nc uc)) ∧
    (∀ text : String, lexCounts text = (0, 0, 0) →
      lexicon_fallback text = ⟨0, 0, 1, "neutral", 1⟩) := by
  refine ⟨?_, lexProbs_eq_normalized, ?_⟩
  · intro pc nc uc
    have h1 := lexPre_pos_nonneg pc nc uc
    have h2 := lexPre_neg_nonneg pc nc uc
    have h3 := lexPre_neutral_floor pc nc uc
    unfold lexSum
    linarith
  · intro text h
    show lexResult (lexCounts text).1 (lexCounts text).2.1 (lexCounts text).2.2 = _
    rw [h]
    exact lexResult_zero

theorem claim_C10_default_unreachable_witness :
    lexicon_fallback "zzzq" = ⟨0, 0, 1, "neutral", 1⟩ :=
  claim_C10_default_unreachable.2.2 "zzzq" (by decide)

/-! ## Trend forecasting (src/app/ml/forecast_model.py) -/

/-- Least-squares numerator n·Σ i·y(i) − (Σ i)·(Σ y(i)) over indices 0..n-1. -/
def lsNum (n : ℕ) (y : ℕ → ℚ) : ℚ :=
  (n : ℚ) * (∑ i in Finset.range n, (i : ℚ) * y i) -
    (∑ i in Finset.range n, (i : ℚ)) * (∑ i in Finset.range n, y i)

/-- Least-squares denominator n·Σ i² − (Σ i)², i.e. `lsNum` applied to the
identity sequence. -/
def lsDen (n : ℕ) : ℚ := lsNum n (fun i => (i : ℚ))

/-- The fitted slope of `LinearRegression().fit(X, y)` with X = 0..n-1
(src/app/ml/forecast_model.py lines 68-82; the same least-squares slope is
`np.polyfit(x, values, 1)[0]` in src/app/services/tools_data.py line 119):
the closed form (n·Σxy − Σx·Σy) / (n·Σx² − (Σx)²). -/
def lsSlope (ys : List ℚ) : ℚ :=
  lsNum ys.length (fun i => ys.getD i 0) / lsDen ys.length

/-- The fitted intercept: mean of y minus slope times mean of x. -/
def lsIntercept (ys : List ℚ) : ℚ :=
  ((∑ i in Finset.range ys.length, ys.getD i 0) -
    lsSlope ys * (∑ i in Finset.range ys.length, (i : ℚ))) / (ys.length : ℚ)

/-- `np.clip(x, 0, 1)`. -/
def clip01 (x : ℚ) : ℚ := min (max x 0) 1

/-- `np.mean(sentiment_scores) if sentiment_scores else 0.5`
(src/app/ml/forecast_model.py line 64). -/
def listMean (scores : List ℚ) : ℚ :=
  if scores.isEmpty then 1/2 else scores.sum / (scores.length : ℚ)

/-- `TrendForecastModel.predict_trend` (src/app/ml/forecast_model.py
lines 46-95): with fewer than 3 scores return `forecast_days` copies of the
mean and "stable"; otherwise fit the regression, predict positions
n..n+forecast_days-1 clipped to [0,1], and label the trend by the slope
against the ±0.01 thresholds. -/
def predict_trend (sentiment_scores : List ℚ) (forecast_days : ℕ) :
    List ℚ × String :=
  if sentiment_scores.length < 3 then
    (List.replicate forecast_days (listMean sentiment_scores), "stable")
  else
    ((List.range forecast_days).map
      (fun k => clip01 (lsSlope sentiment_scores *
        ((sentiment_scores.length + k : ℕ) : ℚ) + lsIntercept sentiment_scores)),
     if 1/100 < lsSlope sentiment_scores then "improving"
     else if lsSlope sentiment_scores < -(1/100) then "declining"
     else "stable")

/-! ### Least-squares slope lemmas -/

theorem lsNum_double_sum (n : ℕ) (y : ℕ → ℚ) :
    (∑ i in Finset.range n, ∑ j in Finset.range n, ((i : ℚ) - j) * (y i - y j)) =
      2 * lsNum n y := by
  have expand : ∀ i j : ℕ, ((i : ℚ) - j) * (y i - y j) =
      (i : ℚ) * y i - (i : ℚ) * y j - (j : ℚ) * y i + (j : ℚ) * y j := by
    intro i j; ring
  have e1 : ∑ i in Finset.range n, ∑ _j in Finset.range n, (i : ℚ) * y i =
      (n : ℚ) * ∑ i in Finset.range n, (i : ℚ) * y i := by
    simp only [Finset.sum_const, Finset.card_range, nsmul_eq_mul]
    exact (Finset.mul_sum _ _ _).symm
  have e2 : ∑ i in Finset.range n, ∑ j in Finset.range n, (i : ℚ) * y j =
      (∑ i in Finset.range n, (i : ℚ)) * (∑ j in Finset.range n, y j) :=
    (Finset.sum_mul_sum _ _ _ _).symm
  have e3 : ∑ i in Finset.range n, ∑ j in Finset.range n, (j : ℚ) * y i =
      (∑ j in Finset.range n, (j : ℚ)) * (∑ i in Finset.range n, y i) := by
    rw [Finset.sum_comm]
    exact (Finset.sum_mul_sum _ _ _ _).symm
  have e4 : ∑ _i in Finset.range n, ∑ j in Finset.range n, (j : ℚ) * y j =
      (n : ℚ) * ∑ j in Finset.range n, (j : ℚ) * y j := by
    simp only [Finset.sum_const, Finset.card_range, nsmul_eq_mul]
  calc ∑ i in Finset.range n, ∑ j in Finset.range n, ((i : ℚ) - j) * (y i - y j)
      = ∑ i in Finset.range n, ∑ j in Finset.range n,
          ((i : ℚ) * y i - (i : ℚ) * y j - (j : ℚ) * y i + (j : ℚ) * y j) := by
        simp only [expand]
    _ = (∑ i in Finset.range n, ∑ _j in Finset.range n, (i : ℚ) * y i) -
          (∑ i in Finset.range n, ∑ j in Finset.range n, (i : ℚ) * y j) -
          (∑ i in Finset.range n, ∑ j in Finset.range n, (j : ℚ) * y i) +
          (∑ _i in Finset.range n, ∑ j in Finset.range n, (j : ℚ) * y j) := by
        simp only [Finset.sum_add_distrib, Finset.sum_sub_distrib]
    _ = 2 * lsNum n y := by
        rw [e1, e2, e3, e4]
        unfold lsNum
        ring

theorem lsNum_pos (n : ℕ) (hn : 2 ≤ n) (y : ℕ → ℚ)
    (hy : ∀ i j : ℕ, i < j → j < n → y i < y j) : 0 < lsNum n y := by
  have key : 0 < ∑ i in Finset.range n, ∑ j in Finset.range n,
      ((i : ℚ) - j) * (y i - y j) := by
    rw [← Finset.sum_product']
    apply Finset.sum_pos'
    · rintro ⟨i, j⟩ hij
      simp only [Finset.mem_product, Finset.mem_range] at hij
      rcases lt_trichotomy i j with h | h | h
      · have hx : ((i : ℚ) - j) < 0 := by
          have : (i : ℚ) < j := by exact_mod_cast h
          linarith
        have hyy : y i - y j < 0 := sub_neg.mpr (hy i j h hij.2)
        exact le_of_lt (mul_pos_of_neg_of_neg hx hyy)
      · subst h; simp
      · have hx : (0 : ℚ) < (i : ℚ) - j := by
          have : (j : ℚ) < i := by exact_mod_cast h
          linarith
        have hyy : 0 < y i - y j := sub_pos.mpr (hy j i h hij.1)
        exact le_of_lt (mul_pos hx hyy)
    · refine ⟨⟨1, 0⟩, ?_, ?_⟩
      · simp only [Finset.mem_product, Finset.mem_range]
        exact ⟨lt_of_lt_of_le Nat.one_lt_two hn, lt_of_lt_of_le Nat.zero_lt_two hn⟩
      · have h01 : y 0 < y 1 := hy 0 1 Nat.zero_lt_one (lt_of_lt_of_le Nat.one_lt_two hn)
        have : (0 : ℚ) < 1 - 0 := by norm_num
        have := mul_pos this (sub_pos.mpr h01)
        simpa using this
  rw [lsNum_double_sum] at key
  linarith

theorem lsNum_neg_seq (n : ℕ) (y : ℕ → ℚ) :
    lsNum n (fun i => -(y i)) = -(lsNum n y) := by
  unfold lsNum
  simp only [mul_neg, Finset.sum_neg_distrib]
  ring

theorem lsNum_congr (n : ℕ) (y z : ℕ → ℚ) (h : ∀ i, i < n → y i = z i) :
    lsNum n y = lsNum n z := by
  unfold lsNum
  have h1 : ∑ i in Finset.range n, (i : ℚ) * y i =
      ∑ i in Finset.range n, (i : ℚ) * z i :=
    Finset.sum_congr rfl (fun i hi => by rw [h i (Finset.mem_range.mp hi)])
  have h2 : ∑ i in Finset.range n, y i = ∑ i in Finset.range n, z i :=
    Finset.sum_congr rfl (fun i hi => h i (Finset.mem_range.mp hi))
  rw [h1, h2]

theorem lsNum_const (n : ℕ) (c : ℚ) : lsNum n (fun _ => c) = 0 := by
  unfold lsNum
  simp only [Finset.sum_const, Finset.card_range, nsmul_eq_mul, ← Finset.sum_mul]
  ring

theorem lsDen_pos (n : ℕ) (hn : 2 ≤ n) : 0 < lsDen n := by
  unfold lsDen
  exact lsNum_pos n hn _ (fun i j h hj => by exact_mod_cast h)

theorem predict_trend_snd (ys : List ℚ) (d : ℕ) (h : ¬ ys.length < 3) :
    (predict_trend ys d).2 =
      (if 1/100 < lsSlope ys then "improving"
       else if lsSlope ys < -(1/100) then "declining" else "stable") := by
  unfold predict_trend
  rw [if_neg h]

theorem sorted_lt_getD (ys : List ℚ) (h : ys.Sorted (· < ·)) :
    ∀ i j, i < j → j < ys.length → ys.getD i 0 < ys.getD j 0 := by
  intro i j hij hj
  have hi : i < ys.length := lt_trans hij hj
  rw [List.getD_eq_getElem ys 0 hi, List.getD_eq_getElem ys 0 hj]
  exact List.pairwise_iff_get.mp h ⟨i, hi⟩ ⟨j, hj⟩ hij

theorem lsSlope_pos_of_sorted (ys : List ℚ) (h3 : 3 ≤ ys.length)
    (h : ys.Sorted (· < ·)) : 0 < lsSlope ys := by
  have h2 : 2 ≤ ys.length := le_trans (by norm_num) h3
  exact div_pos (lsNum_pos _ h2 _ (sorted_lt_getD ys h)) (lsDen_pos _ h2)

theorem lsSlope_neg_of_sorted (ys : List ℚ) (h3 : 3 ≤ ys.length)
    (h : ys.Sorted (· > ·)) : lsSlope ys < 0 := by
  have h2 : 2 ≤ ys.length := le_trans (by norm_num) h3
  have hpos : 0 < lsNum ys.length (fun i => -(ys.getD i 0)) := by
    apply lsNum_pos _ h2
    intro i j hij hj
    have hi : i < ys.length := lt_trans hij hj
    have hlt : ys.getD j 0 < ys.getD i 0 := by
      rw [List.getD_eq_getElem ys 0 hi, List.getD_eq_getElem ys 0 hj]
      exact List.pairwise_iff_get.mp h ⟨i, hi⟩ ⟨j, hj⟩ hij
    simp only [neg_lt_neg_iff]
    exact hlt
  rw [lsNum_neg_seq] at hpos
  have hnum : lsNum ys.length (fun i => ys.getD i 0) < 0 := by linarith
  exact div_neg_of_neg_of_pos hnum (lsDen_pos _ h2)

theorem lsSlope_const_list (ys : List ℚ) (c : ℚ) (hc : ∀ x ∈ ys, x = c) :
    lsSlope ys = 0 := by
  unfold lsSlope
  rw [lsNum_congr ys.length _ (fun _ => c) (fun i hi => by
      rw [List.getD_eq_getElem ys 0 hi]
      exact hc _ (List.getElem_mem hi))]
  rw [lsNum_const, zero_div]

/-- Claim C3: for every list of fewer than 3 sentiment scores and every
horizon, `predict_trend` returns exactly that many copies of the arithmetic
mean of the input (0.5 for empty input) together with trend "stable". -/
theorem claim_C3_short_history_flat (scores : List ℚ) (forecast_days : ℕ)
    (h : scores.length < 3) :
    predict_trend scores forecast_days =
      (List.replicate forecast_days (listMean scores), "stable") ∧
    (scores = [] → listMean scores = 1/2) ∧
    (scores ≠ [] → listMean scores = scores.sum / (scores.length : ℚ)) := by
  refine ⟨?_, ?_, ?_⟩
  · unfold predict_trend
    rw [if_pos h]
  · intro he
    subst he
    rfl
  · intro hne
    unfold listMean
    rw [if_neg (by simpa [List.isEmpty_iff] using hne)]

theorem claim_C3_short_history_flat_witness :
    predict_trend [(1:ℚ)/4, 3/4] 5 =
      (List.replicate 5 (listMean [(1:ℚ)/4, 3/4]), "stable") ∧
    (([(1:ℚ)/4, 3/4] : List ℚ) = [] → listMean [(1:ℚ)/4, 3/4] = 1/2) ∧
    (([(1:ℚ)/4, 3/4] : List ℚ) ≠ [] → listMean [(1:ℚ)/4, 3/4] =
      ([(1:ℚ)/4, 3/4] : List ℚ).sum / (([(1:ℚ)/4, 3/4] : List ℚ).length : ℚ)) :=
  claim_C3_short_history_flat _ _ (by norm_num)

/-- Claim C4, amended: for sequences of length ≥ 3, a strictly increasing
input yields a positive fitted slope but the label is "improving" only when
the slope exceeds 0.01 (and "stable" otherwise); symmetrically a strictly
decreasing input yields a negative slope with "declining" only below −0.01;
a constant input yields slope 0 and "stable". -/
theorem claim_C4_slope_trend (scores : List ℚ) (forecast_days : ℕ)
    (h3 : 3 ≤ scores.length) :
    (scores.Sorted (· < ·) → 0 < lsSlope scores ∧
      (predict_trend scores forecast_days).2 =
        (if 1/100 < lsSlope scores then "improving" else "stable")) ∧
    (scores.Sorted (· > ·) → lsSlope scores < 0 ∧
      (predict_trend scores forecast_days).2 =
        (if lsSlope scores < -(1/100) then "declining" else "stable")) ∧
    (∀ c, (∀ x ∈ scores, x = c) →
      lsSlope scores = 0 ∧ (predict_trend scores forecast_days).2 = "stable") := by
  have hnl : ¬ scores.length < 3 := not_lt.mpr h3
  have hsnd := predict_trend_snd scores forecast_days hnl
  refine ⟨fun hs => ?_, fun hs => ?_, fun c hc => ?_⟩
  · have hp := lsSlope_pos_of_sorted scores h3 hs
    refine ⟨hp, ?_⟩
    rw [hsnd]
    by_cases hgt : 1/100 < lsSlope scores
    · rw [if_pos hgt, if_pos hgt]
    · rw [if_neg hgt, if_neg hgt,
        if_neg (by linarith : ¬ lsSlope scores < -(1/100))]
  · have hp := lsSlope_neg_of_sorted scores h3 hs
    refine ⟨hp, ?_⟩
    rw [hsnd, if_neg (by linarith : ¬ (1/100 : ℚ) < lsSlope scores)]
  · have h0 := lsSlope_const_list scores c hc
    refine ⟨h0, ?_⟩
    rw [hsnd, h0]
    norm_num

theorem claim_C4_slope_trend_witness :
    0 < lsSlope [(0:ℚ), 1/2, 1] ∧
    (predict_trend [(0:ℚ), 1/2, 1] 7).2 =
      (if 1/100 < lsSlope [(0:ℚ), 1/2, 1] then "improving" else "stable") :=
  (claim_C4_slope_trend [(0:ℚ), 1/2, 1] 7 (by norm_num)).1
    (by norm_num [List.sorted_cons])

/-- Claim C4, counterexample to the claim as stated: the strictly increasing
sequence [0, 0.001, 0.002] of length 3 has positive fitted slope, yet
`predict_trend` labels it "stable", not "improving", because the slope does
not exceed the 0.01 threshold. -/
theorem claim_C4_counterexample :
    ([0, 1/1000, 2/1000] : List ℚ).Sorted (· < ·) ∧
    3 ≤ ([0, 1/1000, 2/1000] : List ℚ).length ∧
    0 < lsSlope [0, 1/1000, 2/1000] ∧
    (predict_trend ([0, 1/1000, 2/1000] : List ℚ) 7).2 = "stable" ∧
    "stable" ≠ "improving" := by
  have hslope : lsSlope ([0, 1/1000, 2/1000] : List ℚ) = 1/1000 := by
    have hden : lsDen 3 = 6 := by
      unfold lsDen lsNum
      norm_num [Finset.sum_range_succ]
    unfold lsSlope
    norm_num [hden, lsNum, Finset.sum_range_succ]
  refine ⟨?_, by norm_num, ?_, ?_, by decide⟩
  · norm_num [List.sorted_cons]
  · rw [hslope]
    norm_num
  · rw [predict_trend_snd _ _ (by norm_num), hslope]
    norm_num

/-! ## Aggregate sentiment (src/app/services/agent_orchestrator.py lines 92-104) -/

/-- The `avg_sentiment` dictionary built by step 4 of
`AgentOrchestrator.execute_text_analysis`: keys positive / neutral /
negative / overall / confidence. -/
structure AggregateSentiment where
  positive : ℚ
  neutral : ℚ
  negative : ℚ
  overall : String
  confidence : ℚ
deriving Repr, DecidableEq

/-- Component-wise mean of the per-article positives. -/
def aggP (rs : List SentimentResult) : ℚ :=
  (rs.map SentimentResult.positive).sum / (rs.length : ℚ)

/-- Component-wise mean of the per-article neutrals. -/
def aggU (rs : List SentimentResult) : ℚ :=
  (rs.map SentimentResult.neutral).sum / (rs.length : ℚ)

/-- Component-wise mean of the per-article negatives. -/
def aggN (rs : List SentimentResult) : ℚ :=
  (rs.map SentimentResult.negative).sum / (rs.length : ℚ)

/-- Step 4 of `AgentOrchestrator.execute_text_analysis`
(src/app/services/agent_orchestrator.py lines 92-104): component-wise means,
overall label via Python `max(avg_sentiment, key=avg_sentiment.get)` — the
first maximal key in the insertion order positive, neutral, negative — and
confidence equal to the winning averaged value; an empty input yields the
fixed fallback dictionary of lines 103-104. -/
def aggregate_sentiment (rs : List SentimentResult) : AggregateSentiment :=
  if rs.isEmpty then
    ⟨33/100, 34/100, 33/100, "neutral", 34/100⟩
  else if aggU rs ≤ aggP rs ∧ aggN rs ≤ aggP rs then
    ⟨aggP rs, aggU rs, aggN rs, "positive", aggP rs⟩
  else if aggN rs ≤ aggU rs then
    ⟨aggP rs, aggU rs, aggN rs, "neutral", aggU rs⟩
  else
    ⟨aggP rs, aggU rs, aggN rs, "negative", aggN rs⟩

/-- Claim C5: for every non-empty list of per-article results, the aggregate
components are the arithmetic means of the inputs' components, the overall
label is an argmax of the averaged vector, and the confidence equals the
winning averaged probability, not the mean of the individual confidences. -/
theorem claim_C5_aggregate (rs : List SentimentResult) (h : rs ≠ []) :
    (aggregate_sentiment rs).positive =
      (rs.map SentimentResult.positive).sum / (rs.length : ℚ) ∧
    (aggregate_sentiment rs).neutral =
      (rs.map SentimentResult.neutral).sum / (rs.length : ℚ) ∧
    (aggregate_sentiment rs).negative =
      (rs.map SentimentResult.negative).sum / (rs.length : ℚ) ∧
    (aggregate_sentiment rs).confidence =
      max (aggregate_sentiment rs).positive
        (max (aggregate_sentiment rs).neutral (aggregate_sentiment rs).negative) ∧
    ((aggregate_sentiment rs).overall = "positive" →
      (aggregate_sentiment rs).confidence = (aggregate_sentiment rs).positive) ∧
    ((aggregate_sentiment rs).overall = "neutral" →
      (aggregate_sentiment rs).confidence = (aggregate_sentiment rs).neutral) ∧
    ((aggregate_sentiment rs).overall = "negative" →
      (aggregate_sentiment rs).confidence = (aggregate_sentiment rs).negative) := by
  have hne : ¬ (rs.isEmpty = true) := by simpa [List.isEmpty_iff] using h
  unfold aggregate_sentiment
  rw [if_neg hne]
  by_cases h1 : aggU rs ≤ aggP rs ∧ aggN rs ≤ aggP rs
  · rw [if_pos h1]
    refine ⟨rfl, rfl, rfl, ?_, fun _ => rfl, ?_, ?_⟩
    · exact (max_eq_left (max_le h1.1 h1.2)).symm
    · intro hc
      exact absurd hc (show ¬ ("positive" : String) = "neutral" by decide)
    · intro hc
      exact absurd hc (show ¬ ("positive" : String) = "negative" by decide)
  · rw [if_neg h1]
    by_cases h2 : aggN rs ≤ aggU rs
    · rw [if_pos h2]
      have hpu : aggP rs ≤ aggU rs := by
        by_contra hlt
        push_neg at hlt
        exact h1 ⟨le_of_lt hlt, le_trans h2 (le_of_lt hlt)⟩
      refine ⟨rfl, rfl, rfl, ?_, ?_, fun _ => rfl, ?_⟩
      · rw [max_eq_left h2, max_eq_right hpu]
      · intro hc
        exact absurd hc (show ¬ ("neutral" : String) = "positive" by decide)
      · intro hc
        exact absurd hc (show ¬ ("neutral" : String) = "negative" by decide)
    · rw [if_neg h2]
      push_neg at h2
      have hpn : aggP rs ≤ aggN rs := by
        rcases not_and_or.mp h1 with hu | hn
        · push_neg at hu
          exact le_of_lt (lt_trans hu h2)
        · push_neg at hn
          exact le_of_lt hn
      refine ⟨rfl, rfl, rfl, ?_, ?_, ?_, fun _ => rfl⟩
      · rw [max_eq_right (le_of_lt h2), max_eq_right hpn]
      · intro hc
        exact absurd hc (show ¬ ("negative" : String) = "positive" by decide)
      · intro hc
        exact absurd hc (show ¬ ("negative" : String) = "neutral" by decide)

theorem claim_C5_aggregate_witness :
    (aggregate_sentiment [⟨3/5, 1/5, 1/5, "positive", 3/5⟩]).positive =
      (([⟨3/5, 1/5, 1/5, "positive", 3/5⟩] : List SentimentResult).map
        SentimentResult.positive).sum /
        (([⟨3/5, 1/5, 1/5, "positive", 3/5⟩] : List SentimentResult).length : ℚ) ∧
    (aggregate_sentiment [⟨3/5, 1/5, 1/5, "positive", 3/5⟩]).neutral =
      (([⟨3/5, 1/5, 1/5, "positive", 3/5⟩] : List SentimentResult).map
        SentimentResult.neutral).sum /
        (([⟨3/5, 1/5, 1/5, "positive", 3/5⟩] : List SentimentResult).length : ℚ) ∧
    (aggregate_sentiment [⟨3/5, 1/5, 1/5, "positive", 3/5⟩]).negative =
      (([⟨3/5, 1/5, 1/5, "positive", 3/5⟩] : List SentimentResult).map
        SentimentResult.negative).sum /
        (([⟨3/5, 1/5, 1/5, "positive", 3/5⟩] : List SentimentResult).length : ℚ) ∧
    (aggregate_sentiment [⟨3/5, 1/5, 1/5, "positive", 3/5⟩]).confidence =
      max (aggregate_sentiment [⟨3/5, 1/5, 1/5, "positive", 3/5⟩]).positive
        (max (aggregate_sentiment [⟨3/5, 1/5, 1/5, "positive", 3/5⟩]).neutral
          (aggregate_sentiment [⟨3/5, 1/5, 1/5, "positive", 3/5⟩]).negative) ∧
    ((aggregate_sentiment [⟨3/5, 1/5, 1/5, "positive", 3/5⟩]).overall = "positive" →
      (aggregate_sentiment [⟨3/5, 1/5, 1/5, "positive", 3/5⟩]).confidence =
        (aggregate_sentiment [⟨3/5, 1/5, 1/5, "positive", 3/5⟩]).positive) ∧
    ((aggregate_sentiment [⟨3/5, 1/5, 1/5, "positive", 3/5⟩]).overall = "neutral" →
      (aggregate_sentiment [⟨3/5, 1/5, 1/5, "positive", 3/5⟩]).confidence =
        (aggregate_sentiment [⟨3/5, 1/5, 1/5, "positive", 3/5⟩]).neutral) ∧
    ((aggregate_sentiment [⟨3/5, 1/5, 1/5, "positive", 3/5⟩]).overall = "negative" →
      (aggregate_sentiment [⟨3/5, 1/5, 1/5, "positive", 3/5⟩]).confidence =
        (aggregate_sentiment [⟨3/5, 1/5, 1/5, "positive", 3/5⟩]).negative) :=
  claim_C5_aggregate [⟨3/5, 1/5, 1/5, "positive", 3/5⟩] (by simp)

/-! ## Tabular pattern and anomaly detection (src/app/services/tools_data.py)

The numeric part of a loaded dataframe is modelled as a list of named
columns whose cells are `Option ℚ` (`none` marking a missing value).
pandas `.std()` is the sample standard deviation (denominator n−1); to stay
inside ℚ the embedding carries the variance and expresses every comparison
against the standard deviation by the equivalent comparison of squares
(both sides of each original comparison are nonnegative). -/

/-- A numeric column of the dataframe. -/
structure NumColumn where
  name : String
  cells : List (Option ℚ)
deriving Repr, DecidableEq

/-- `values = numeric_df[col].dropna()`. -/
def dropna (cells : List (Option ℚ)) : List ℚ :=
  cells.filterMap id

/-- `values.mean()`. -/
def colMean (vs : List ℚ) : ℚ :=
  vs.sum / (vs.length : ℚ)

/-- The square of `values.std()` (pandas sample variance, denominator n−1). -/
def colVar (vs : List ℚ) : ℚ :=
  (vs.map (fun v => (v - colMean vs) ^ 2)).sum / ((vs.length : ℚ) - 1)

/-- `np.abs((v - mean) / std) > 3`, expressed squared: (v − mean)² > 9·var. -/
def isOutlier (vs : List ℚ) (v : ℚ) : Bool :=
  decide (9 * colVar vs < (v - colMean vs) ^ 2)

/-- One entry of the `anomalies` list built by `find_anomalies`; the
`percentage` field records that the Python dictionary carries no
`'percentage'` key (`none`), which matters for claim C9. -/
structure AnomalyEntry where
  column : String
  count : ℕ
  examples : List ℚ
  percentage : Option ℚ
deriving Repr, DecidableEq

/-- Per-column body of the `find_anomalies` loop
(src/app/services/tools_data.py lines 140-156): require more than 3
non-missing values and positive standard deviation, flag |z| > 3, and record
the column name, the outlier count and the first 3 outlier values. -/
def colAnomaly (col : NumColumn) : Option AnomalyEntry :=
  if 3 < (dropna col.cells).length then
    if 0 < colVar (dropna col.cells) then
      if 0 < ((dropna col.cells).filter (isOutlier (dropna col.cells))).length then
        some ⟨col.name,
          ((dropna col.cells).filter (isOutlier (dropna col.cells))).length,
          ((dropna col.cells).filter (isOutlier (dropna col.cells))).take 3,
          none⟩
      else none
    else none
  else none

/-- `DataAnalysisTool.find_anomalies` (src/app/services/tools_data.py
lines 133-161): the loop over the first five numeric columns, appending one
entry per column that produces outliers. -/
def find_anomalies (tbl : List NumColumn) : List AnomalyEntry :=
  (tbl.take 5).filterMap colAnomaly

theorem filter_replicate_false (p : ℚ → Bool) (a : ℚ) (h : p a = false) (n : ℕ) :
    (List.replicate n a).filter p = [] := by
  induction n with
  | zero => rfl
  | succ n ih => simp [List.replicate_succ, List.filter_cons, h, ih]

/-- The spike column used for the C6 scenario: 100 cells at −1, one at 0 and
one at 100; its mean is 0, its sample variance 100 (standard deviation 10),
and 100 sits exactly at mean + 10·std. -/
def spikeVals : List ℚ :=
  List.replicate 100 (-1) ++ [0, 100]

theorem spikeVals_mean : colMean spikeVals = 0 := by
  unfold colMean spikeVals
  rw [List.sum_append, List.sum_replicate]
  norm_num

theorem spikeVals_var : colVar spikeVals = 100 := by
  unfold colVar
  rw [spikeVals_mean]
  unfold spikeVals
  rw [List.map_append, List.map_replicate, List.sum_append, List.sum_replicate]
  simp only [List.length_append, List.length_replicate]
  norm_num

theorem dropna_map_some (vs : List ℚ) : dropna (vs.map some) = vs := by
  simp [dropna]

theorem spikeVals_length : spikeVals.length = 102 := by
  unfold spikeVals
  simp

theorem spike_filter : spikeVals.filter (isOutlier spikeVals) = [100] := by
  have h1 : isOutlier spikeVals (-1) = false := by
    unfold isOutlier
    rw [spikeVals_mean, spikeVals_var]
    exact decide_eq_false (by norm_num)
  have h0 : isOutlier spikeVals 0 = false := by
    unfold isOutlier
    rw [spikeVals_mean, spikeVals_var]
    exact decide_eq_false (by norm_num)
  have h100 : isOutlier spikeVals 100 = true := by
    unfold isOutlier
    rw [spikeVals_mean, spikeVals_var]
    exact decide_eq_true (by norm_num)
  have key : ∀ p : ℚ → Bool, p (-1) = false → p 0 = false → p 100 = true →
      spikeVals.filter p = [100] := by
    intro p hp1 hp0 hp100
    unfold spikeVals
    rw [List.filter_append, filter_replicate_false _ _ hp1]
    simp [List.filter_cons, hp0, hp100]
  exact key _ h1 h0 h100

theorem flatVals_var : colVar (List.replicate 5 (3:ℚ)) = 0 := by
  have hm : colMean (List.replicate 5 (3:ℚ)) = 3 := by
    unfold colMean
    rw [List.sum_replicate]
    simp
  unfold colVar
  rw [hm, List.map_replicate, List.sum_replicate]
  simp

theorem spike_colAnomaly :
    colAnomaly ⟨"spike", spikeVals.map some⟩ = some ⟨"spike", 1, [100], none⟩ := by
  unfold colAnomaly
  simp only [dropna_map_some]
  rw [spikeVals_length, spikeVals_var, spike_filter]
  norm_num

theorem spike_find_anomalies :
    find_anomalies [⟨"spike", spikeVals.map some⟩] =
      [⟨"spike", 1, [100], none⟩] := by
  unfold find_anomalies
  simp [spike_colAnomaly]

/-- Claim C6: `find_anomalies` inspects only the first five numeric columns,
requires at least 4 non-missing values per column, flags values with |z| > 3
reporting the column name, the outlier count and at most 3 example values,
reports nothing for a zero-variance column; a value at mean + 10·std is
always flagged, the spike series (100 × −1, 0, 100) flags exactly its spike,
and an all-equal series flags nothing. -/
theorem claim_C6_find_anomalies :
    (∀ tbl : List NumColumn, find_anomalies tbl = find_anomalies (tbl.take 5)) ∧
    (∀ col : NumColumn, (dropna col.cells).length ≤ 3 → colAnomaly col = none) ∧
    (∀ col : NumColumn, colVar (dropna col.cells) = 0 → colAnomaly col = none) ∧
    (∀ (col : NumColumn) (a : AnomalyEntry), colAnomaly col = some a →
      a.column = col.name ∧
      a.count = ((dropna col.cells).filter (isOutlier (dropna col.cells))).length ∧
      0 < a.count ∧
      a.examples = ((dropna col.cells).filter (isOutlier (dropna col.cells))).take 3 ∧
      a.examples.length ≤ 3) ∧
    (∀ (vs : List ℚ) (v : ℚ), 0 < colVar vs →
      (v - colMean vs) ^ 2 = 100 * colVar vs → isOutlier vs v = true) ∧
    find_anomalies [⟨"spike", spikeVals.map some⟩] = [⟨"spike", 1, [100], none⟩] ∧
    (100 - colMean spikeVals) ^ 2 = 100 * colVar spikeVals ∧
    find_anomalies [⟨"flat", List.replicate 5 (some (3:ℚ))⟩] = [] := by
  refine ⟨?_, ?_, ?_, ?_, ?_, ?_, ?_, ?_⟩
  · intro tbl
    unfold find_anomalies
    rw [List.take_take, min_self]
  · intro col h
    unfold colAnomaly
    rw [if_neg (not_lt.mpr h)]
  · intro col h
    unfold colAnomaly
    split_ifs with h1 h2 h3 <;> try rfl
    rw [h] at h2
    exact absurd h2 (lt_irrefl 0)
  · intro col a h
    unfold colAnomaly at h
    split_ifs at h with h1 h2 h3
    injection h with h
    subst h
    exact ⟨rfl, rfl, h3, rfl, List.length_take_le 3 _⟩
  · intro vs v hv he
    unfold isOutlier
    apply decide_eq_true
    rw [he]
    linarith
  · exact spike_find_anomalies
  · rw [spikeVals_mean, spikeVals_var]
    norm_num
  · unfold find_anomalies
    have hca : colAnomaly ⟨"flat", List.replicate 5 (some (3:ℚ))⟩ = none := by
      unfold colAnomaly
      have hd : dropna (List.replicate 5 (some (3:ℚ))) = List.replicate 5 (3:ℚ) := by
        simp [dropna]
      simp only [hd]
      rw [flatVals_var]
      simp
    show List.filterMap colAnomaly
      (([⟨"flat", List.replicate 5 (some (3:ℚ))⟩] : List NumColumn).take 5) = []
    rw [show (([⟨"flat", List.replicate 5 (some (3:ℚ))⟩] : List NumColumn).take 5) =
        [⟨"flat", List.replicate 5 (some (3:ℚ))⟩] from rfl]
    simp only [List.filterMap_cons, hca, List.filterMap_nil]

theorem claim_C6_find_anomalies_witness :
    colAnomaly ⟨"x", [some 1, none]⟩ = none :=
  claim_C6_find_anomalies.2.1 ⟨"x", [some 1, none]⟩ (by simp [dropna])

/-- One entry of the `trends` list built by `detect_patterns`. -/
structure TrendEntry where
  column : String
  trend : String
  slope : ℚ
deriving Repr, DecidableEq

/-- Per-column body of the trends loop in `DataAnalysisTool.detect_patterns`
(src/app/services/tools_data.py lines 114-126): require more than 10
non-missing values, fit the least-squares slope against the row index
(`np.polyfit(x, values, 1)[0]`), and report the column when
|slope| > std·0.01, expressed squared as slope² > var/10000 (both sides of
the original comparison are nonnegative), with direction "increasing" when
slope > 0 and "decreasing" otherwise. -/
def colTrend (col : NumColumn) : Option TrendEntry :=
  if 10 < (dropna col.cells).length then
    if colVar (dropna col.cells) / 10000 < lsSlope (dropna col.cells) ^ 2 then
      some ⟨col.name,
        if 0 < lsSlope (dropna col.cells) then "increasing" else "decreasing",
        lsSlope (dropna col.cells)⟩
    else none
  else none

/-- The `trends` component of `DataAnalysisTool.detect_patterns`
(src/app/services/tools_data.py lines 113-126): the loop over the first
three numeric columns.  (The `correlations` component of the same function
involves Pearson coefficients, which are outside the claims considered
here.) -/
def detect_patterns_trends (tbl : List NumColumn) : List TrendEntry :=
  (tbl.take 3).filterMap colTrend

/-- Claim C7, amended: `detect_patterns` reports a linear-trend finding for
each of the first three numeric columns exactly when the column has more
than 10 non-missing values and the fitted slope satisfies
|slope| > 0.01 × std, with direction "increasing" if slope > 0 and
"decreasing" otherwise. -/
theorem claim_C7_trend_reporting :
    (∀ tbl : List NumColumn,
      detect_patterns_trends tbl = detect_patterns_trends (tbl.take 3)) ∧
    (∀ col : NumColumn, colTrend col ≠ none ↔
      (10 < (dropna col.cells).length ∧
       colVar (dropna col.cells) / 10000 < lsSlope (dropna col.cells) ^ 2)) ∧
    (∀ (col : NumColumn) (e : TrendEntry), colTrend col = some e →
      e.column = col.name ∧
      e.slope = lsSlope (dropna col.cells) ∧
      e.trend = (if 0 < lsSlope (dropna col.cells)
                 then "increasing" else "decreasing")) := by
  refine ⟨?_, ?_, ?_⟩
  · intro tbl
    unfold detect_patterns_trends
    rw [List.take_take, min_self]
  · intro col
    unfold colTrend
    by_cases h1 : 10 < (dropna col.cells).length
    · rw [if_pos h1]
      by_cases h2 : colVar (dropna col.cells) / 10000 < lsSlope (dropna col.cells) ^ 2
      · rw [if_pos h2]
        simp only [ne_eq, reduceCtorEq, not_false_eq_true, true_iff]
        exact ⟨h1, h2⟩
      · rw [if_neg h2]
        simp only [ne_eq, not_true_eq_false, false_iff, not_and]
        intro
        exact h2
    · rw [if_neg h1]
      simp only [ne_eq, not_true_eq_false, false_iff, not_and]
      intro h
      exact absurd h h1
  · intro col e h
    unfold colTrend at h
    by_cases h1 : 10 < (dropna col.cells).length
    · rw [if_pos h1] at h
      by_cases h2 : colVar (dropna col.cells) / 10000 < lsSlope (dropna col.cells) ^ 2
      · rw [if_pos h2] at h
        injection h with h
        subst h
        exact ⟨rfl, rfl, rfl⟩
      · rw [if_neg h2] at h
        exact Option.noConfusion h
    · rw [if_neg h1] at h
      exact Option.noConfusion h

/-- Claim C7, counterexample to the claim as stated: a column of five values
0, 10, 20, 30, 40 satisfies the slope criterion (slope 10, standard
deviation ≈ 15.8), yet `detect_patterns` reports no trend for it because the
loop also requires more than 10 non-missing values. -/
theorem claim_C7_counterexample :
    detect_patterns_trends
      [⟨"a", [some 0, some 10, some 20, some 30, some 40]⟩] = [] ∧
    colVar (dropna [some 0, some 10, some 20, some 30, some 40]) / 10000 <
      lsSlope (dropna [some 0, some 10, some 20, some 30, some 40]) ^ 2 := by
  have hd : dropna [some 0, some 10, some 20, some 30, some 40] =
      ([0, 10, 20, 30, 40] : List ℚ) := by
    simp [dropna]
  constructor
  · have hct : colTrend ⟨"a", [some 0, some 10, some 20, some 30, some 40]⟩ =
        none := by
      unfold colTrend
      simp only [hd]
      norm_num
    unfold detect_patterns_trends
    rw [show (([⟨"a", [some 0, some 10, some 20, some 30, some 40]⟩] :
        List NumColumn).take 3) =
        [⟨"a", [some 0, some 10, some 20, some 30, some 40]⟩] from rfl]
    simp only [List.filterMap_cons, hct, List.filterMap_nil]
  · rw [hd]
    have hvar : colVar ([0, 10, 20, 30, 40] : List ℚ) = 250 := by
      have hm : colMean ([0, 10, 20, 30, 40] : List ℚ) = 20 := by
        unfold colMean
        norm_num
      unfold colVar
      rw [hm]
      norm_num
    have hslope : lsSlope ([0, 10, 20, 30, 40] : List ℚ) = 10 := by
      have hden : lsDen 5 = 50 := by
        unfold lsDen lsNum
        norm_num [Finset.sum_range_succ]
      unfold lsSlope
      norm_num [hden, lsNum, Finset.sum_range_succ]
    rw [hvar, hslope]
    norm_num

/-- An 11-row strictly increasing column used to exercise `colTrend`. -/
def c11 : List (Option ℚ) :=
  [some 0, some 1, some 2, some 3, some 4, some 5,
   some 6, some 7, some 8, some 9, some 10]

theorem claim_C7_trend_reporting_witness :
    (⟨"c", "increasing", 1⟩ : TrendEntry).column = (⟨"c", c11⟩ : NumColumn).name ∧
    (⟨"c", "increasing", 1⟩ : TrendEntry).slope = lsSlope (dropna c11) ∧
    (⟨"c", "increasing", 1⟩ : TrendEntry).trend =
      (if 0 < lsSlope (dropna c11) then "increasing" else "decreasing") := by
  have hd : dropna c11 = ([0, 1, 2, 3, 4, 5, 6, 7, 8, 9, 10] : List ℚ) := by
    simp [dropna, c11]
  have hgd : ∀ i, i < 11 →
      (([0, 1, 2, 3, 4, 5, 6, 7, 8, 9, 10] : List ℚ)).getD i 0 = (i : ℚ) := by
    intro i hi
    interval_cases i <;> norm_num [List.getD]
  have hslope : lsSlope ([0, 1, 2, 3, 4, 5, 6, 7, 8, 9, 10] : List ℚ) = 1 := by
    unfold lsSlope
    rw [show (([0, 1, 2, 3, 4, 5, 6, 7, 8, 9, 10] : List ℚ)).length = 11 from rfl]
    rw [lsNum_congr 11 _ (fun i => (i : ℚ)) hgd]
    exact div_self (lsDen_pos 11 (by norm_num)).ne'
  have hvar : colVar ([0, 1, 2, 3, 4, 5, 6, 7, 8, 9, 10] : List ℚ) = 11 := by
    have hm : colMean ([0, 1, 2, 3, 4, 5, 6, 7, 8, 9, 10] : List ℚ) = 5 := by
      unfold colMean
      norm_num
    unfold colVar
    rw [hm]
    norm_num
  have hct : colTrend ⟨"c", c11⟩ = some ⟨"c", "increasing", 1⟩ := by
    unfold colTrend
    simp only [hd]
    rw [hslope, hvar]
    norm_num
  exact claim_C7_trend_reporting.2.2 ⟨"c", c11⟩ ⟨"c", "increasing", 1⟩ hct

/-! ## Anomaly percentage in the data-analysis report
(src/app/services/agent_orchestrator.py lines 417-420) -/

/-- `anom.get('percentage', 0)`: the value interpolated into each anomaly
bullet of the data-analysis report. -/
def anomalyPercentage (a : AnomalyEntry) : ℚ :=
  a.percentage.getD 0

/-- Claim C9: every anomaly entry reaching the data-analysis report carries
no `'percentage'` key, so the bullet's `anom.get('percentage', 0)` is 0 for
every dataset and every number of detected outliers — the report always
prints "0.0% of data". -/
theorem claim_C9_percentage_always_zero :
    (∀ (tbl : List NumColumn) (a : AnomalyEntry), a ∈ find_anomalies tbl →
      a.percentage = none ∧ anomalyPercentage a = 0) ∧
    (∀ (col : NumColumn) (a : AnomalyEntry), colAnomaly col = some a →
      a.percentage = none) := by
  have hcol : ∀ (col : NumColumn) (a : AnomalyEntry), colAnomaly col = some a →
      a.percentage = none := by
    intro col a h
    unfold colAnomaly at h
    split_ifs at h
    injection h with h
    subst h
    rfl
  refine ⟨?_, hcol⟩
  intro tbl a ha
  unfold find_anomalies at ha
  obtain ⟨col, _, hcond⟩ := List.mem_filterMap.mp ha
  have hp := hcol col a hcond
  exact ⟨hp, by unfold anomalyPercentage; rw [hp]; rfl⟩

theorem claim_C9_percentage_always_zero_witness :
    (⟨"spike", 1, [100], none⟩ : AnomalyEntry).percentage = none ∧
    anomalyPercentage ⟨"spike", 1, [100], none⟩ = 0 :=
  claim_C9_percentage_always_zero.1 [⟨"spike", spikeVals.map some⟩]
    ⟨"spike", 1, [100], none⟩
    (by rw [spike_find_anomalies]; exact List.mem_singleton.mpr rfl)

/-! ## Fallback task interpretation (src/app/genai/llm_client.py) -/

/-- `TaskPlan` dictionary returned by `LLMClient._fallback_interpret`
(the open `parameters` mapping is always empty there and is omitted). -/
structure TaskPlan where
  task_type : String
  entity : String
  user_intent : String
  analysis_focus : String
  actions : List String
  time_range : String
deriving Repr, DecidableEq

/-- Python `any(word in query_lower for word in ws)`. -/
def anyWord (tl : List Char) (ws : List String) : Bool :=
  ws.any (fun w => containsSub tl w)

/-- Python `query[:100]`. -/
def pyTake100 (s : String) : String :=
  ⟨s.toList.take 100⟩

/-- `LLMClient._fallback_interpret` (src/app/genai/llm_client.py
lines 62-110): the three keyword cascades for analysis focus, time range and
task type (each tested in the stated priority order), entity equal to the
first 100 characters of the query and user intent equal to the full query. -/
def fallback_interpret (query : String) : TaskPlan :=
  let ql := lowerChars query
  let analysis_focus :=
    if anyWord ql ["highlight", "headlines", "top news", "breaking", "major"]
    then "highlights"
    else if anyWord ql ["sentiment", "feeling", "opinion", "perception"]
    then "sentiment"
    else if anyWord ql ["trend", "pattern", "direction", "momentum"]
    then "trends"
    else "comprehensive"
  let time_range :=
    if anyWord ql ["today", "today\x27s", "current"] then "today"
    else if anyWord ql ["recent", "latest", "past few days"] then "last_3_days"
    else if anyWord ql ["week", "weekly"] then "last_7_days"
    else if anyWord ql ["month", "monthly"] then "last_30_days"
    else "last_7_days"
  let tt :=
    if anyWord ql ["news", "article", "sentiment", "stock", "market"] then
      ("news_insight",
       ["search_news", "analyze_sentiment", "predict_trends", "generate_report"])
    else if anyWord ql ["pdf", "document", "paper", "file"] then
      ("document_analysis", ["extract_text", "summarize_text", "generate_report"])
    else if anyWord ql ["csv", "excel", "data", "dataset"] then
      ("data_analysis",
       ["load_data", "analyze_patterns", "visualize_data", "generate_report"])
    else
      ("general_research", ["research", "summarize", "generate_report"])
  { task_type := tt.1
    entity := pyTake100 query
    user_intent := query
    analysis_focus := analysis_focus
    actions := tt.2
    time_range := time_range }

/-- Claim C8: the deterministic fallback interpreter maps the query
"today's big news highlights" to analysis focus "highlights", time range
"today" and task type "news_insight" (with the news-insight action list),
entity equal to the first 100 characters of the query — here the whole
query — and user intent equal to the full query; moreover entity and user
intent are so derived for every query. -/
theorem claim_C8_fallback_scenario :
    fallback_interpret "today\x27s big news highlights" =
      { task_type := "news_insight"
        entity := "today\x27s big news highlights"
        user_intent := "today\x27s big news highlights"
        analysis_focus := "highlights"
        actions := ["search_news", "analyze_sentiment", "predict_trends",
                    "generate_report"]
        time_range := "today" } ∧
    (∀ query : String, (fallback_interpret query).entity = pyTake100 query ∧
      (fallback_interpret query).user_intent = query) := by
  refine ⟨by decide, fun query => ⟨rfl, rfl⟩⟩

/-! ## Orchestration state machine (src/app/services/agent_orchestrator.py)

External effects — the news search, per-article model prediction, chart
rendering, every LLM call, document extraction, tabular loading and PDF
rendering — are modelled as `Except String` oracle values bundled per
pipeline: `.error e` stands for the call raising an exception whose
`str(e)` is the message.  In-repo pure logic between the calls is
translated directly.  Report-content strings flow only into the render
call and are not reconstructed. -/

/-- The persisted task row (src/app/db/models.py class Task), restricted to
the fields the orchestrator writes; timestamps are modelled as set/unset. -/
structure TaskRec where
  task_id : String
  status : String
  task_type : String
  query : Option String
  instruction : Option String
  summary : Option String
  sentiment_summary : Option AggregateSentiment
  forecast : Option String
  report_url : Option String
  charts : Option (List String)
  error : Option String
  task_metadata_set : Bool
  completed_at_set : Bool
deriving Repr, DecidableEq

/-- The record created and committed at the start of each pipeline
(status PROCESSING, no outputs, no error, no completion timestamp). -/
def initTask (task_id task_type : String) (q instruction : Option String) :
    TaskRec :=
  ⟨task_id, "processing", task_type, q, instruction,
   none, none, none, none, none, none, false, false⟩

/-- The `except` handler shared by all three pipelines
(src/app/services/agent_orchestrator.py lines 191-197, 281-287, 464-470):
status FAILED, error = str(e), completed_at set; nothing else touched. -/
def commitFailed (t : TaskRec) (e : String) : TaskRec :=
  { t with status := "failed", error := some e, completed_at_set := true }

/-- `np.mean` on a list (callers below only apply it to nonempty lists). -/
def pyMean (l : List ℚ) : ℚ :=
  l.sum / (l.length : ℚ)

/-- Python `f"{q:.1f}"` for nonnegative q, modelled as exact rational
rounding to one decimal place. -/
def fmt1 (q : ℚ) : String :=
  toString (⌊q * 10 + 1/2⌋ / 10) ++ "." ++ toString (⌊q * 10 + 1/2⌋ % 10)

/-- `TrendForecastModel.forecast_sentiment` (src/app/ml/forecast_model.py
lines 97-141): extract the positive series, predict, compare the mean of the
last three scores with the mean of the predictions, and render one of three
fixed templates. -/
def forecast_sentiment (history : List SentimentResult) (days : ℕ) : String :=
  let scores := history.map SentimentResult.positive
  let pt := predict_trend scores days
  let current_avg :=
    if 3 ≤ scores.length then pyMean (scores.drop (scores.length - 3))
    else pyMean scores
  let future_avg := pyMean pt.1
  let change_pct :=
    if 0 < current_avg then (future_avg - current_avg) / current_avg * 100 else 0
  let base := "Based on recent sentiment analysis, the trend is **" ++ pt.2 ++ "**. "
  if pt.2 = "improving" then
    base ++ "Sentiment is expected to improve by approximately " ++
      fmt1 |change_pct| ++ "% " ++ "over the next " ++ toString days ++
      " days. Positive outlook."
  else if pt.2 = "declining" then
    base ++ "Sentiment is expected to decline by approximately " ++
      fmt1 |change_pct| ++ "% " ++ "over the next " ++ toString days ++
      " days. Caution advised."
  else
    base ++ "Sentiment is expected to remain relatively stable " ++
      "over the next " ++ toString days ++ " days."

/-- Oracle bundle for `execute_text_analysis`: the outcome of each external
call, in pipeline order.  Chart renderers return "" on their own internal
failure (they never raise), hence `Except String String` with the empty
string treated as falsy by the caller. -/
structure TextOracles where
  interpret : Except String TaskPlan
  search_news : Except String (List String)
  predict : String → Except String SentimentResult
  sentiment_chart : Except String String
  trend_chart : Except String String
  analyze_news : Except String String
  generate_report : Except String String
  pdf_report : Except String String

/-- The fields committed by a successful text-analysis run. -/
structure TextOutcome where
  summary : String
  sentiment_summary : AggregateSentiment
  forecast : String
  report_url : String
  charts : List String
deriving Repr, DecidableEq

/-- Body of the `try` block of `AgentOrchestrator.execute_text_analysis`
(src/app/services/agent_orchestrator.py lines 71-189).  The plan record
always carries every key, so the Python `plan.get(k, default)` calls
collapse to field reads. -/
def textBody (entity0 : Option String) (o : TextOracles) :
    Except String TextOutcome := do
  let plan ← o.interpret
  let _entity := entity0.getD plan.entity
  let articles ← o.search_news
  let sentiment_results ← articles.mapM o.predict
  let avg := aggregate_sentiment sentiment_results
  let sentiment_chart ← o.sentiment_chart
  let charts1 := if sentiment_chart ≠ "" then [sentiment_chart] else []
  let fc ← if 3 ≤ sentiment_results.length then do
      let d := forecast_sentiment sentiment_results 7
      let tc ← o.trend_chart
      pure (d, charts1 ++ (if tc ≠ "" then [tc] else []))
    else pure ("", charts1)
  let llm_analysis ← o.analyze_news
  let _report_content ← o.generate_report
  let report_url ← o.pdf_report
  pure ⟨llm_analysis, avg, fc.1, report_url, fc.2⟩

/-- `AgentOrchestrator.execute_text_analysis`
(src/app/services/agent_orchestrator.py lines 52-197): create and commit the
processing record, run the body, then commit exactly one terminal state —
completed with the outputs, or failed with the error re-raised.  The first
component is the committed row, the second what the caller observes. -/
def execute_text_analysis (task_id query : String) (entity0 : Option String)
    (o : TextOracles) : TaskRec × Except String TaskRec :=
  let task := initTask task_id "news_insight" (some query) none
  match textBody entity0 o with
  | .ok r =>
      let done := { task with
        status := "completed", summary := some r.summary,
        sentiment_summary := some r.sentiment_summary,
        forecast := some r.forecast, report_url := some r.report_url,
        charts := some r.charts, task_metadata_set := true,
        completed_at_set := true }
      (done, .ok done)
  | .error e => (commitFailed task e, .error e)

/-- Oracle bundle for `execute_document_analysis`. -/
structure DocOracles where
  extract_text : Except String String
  analyze_document : Except String String
  summarize : Except String String
  pdf_report : Except String String

/-- Body of the `try` block of `AgentOrchestrator.execute_document_analysis`
(src/app/services/agent_orchestrator.py lines 217-279).  The section
extraction and the report-content string affect only the render call. -/
def docBody (o : DocOracles) : Except String (String × String) := do
  let _text ← o.extract_text
  let analysis ← o.analyze_document
  let _summary ← o.summarize
  let report_url ← o.pdf_report
  pure (analysis, report_url)

/-- `AgentOrchestrator.execute_document_analysis`
(src/app/services/agent_orchestrator.py lines 199-287).  No sentiment,
forecast or chart field is ever written for documents. -/
def execute_document_analysis (task_id instruction : String) (o : DocOracles) :
    TaskRec × Except String TaskRec :=
  let task := initTask task_id "document_analysis" none (some instruction)
  match docBody o with
  | .ok r =>
      let done := { task with
        status := "completed", summary := some r.1, report_url := some r.2,
        task_metadata_set := true, completed_at_set := true }
      (done, .ok done)
  | .error e => (commitFailed task e, .error e)

/-- Oracle bundle for `execute_data_analysis`.  `date_cols_found` stands for
the outcome of the pandas datetime-coercion scan and `has_correlations` for
`patterns['correlations']` being nonempty (the Pearson computation is not
embedded); both only gate chart-render calls. -/
structure DataOracles where
  load_data : Except String (List NumColumn)
  analyze_data : Except String String
  dist_chart : Except String String
  corr_chart : Except String String
  date_cols_found : Bool
  time_series_chart : Except String String
  has_correlations : Bool
  bar_chart : Except String String
  pdf_report : Except String String

/-- Body of the `try` block of `AgentOrchestrator.execute_data_analysis`
(src/app/services/agent_orchestrator.py lines 307-462): load the numeric
table, run the in-repo pattern and anomaly detectors, then the LLM analysis
and the conditional chart renders in source order. -/
def dataBody (o : DataOracles) : Except String (String × String × List String) := do
  let tbl ← o.load_data
  let _patterns := detect_patterns_trends tbl
  let _anomalies := find_anomalies tbl
  let analysis ← o.analyze_data
  let charts1 ← if 0 < tbl.length then do
      let c ← o.dist_chart
      pure (if c ≠ "" then [c] else [])
    else pure []
  let charts2 ← if 2 ≤ tbl.length then do
      let c ← o.corr_chart
      pure (charts1 ++ (if c ≠ "" then [c] else []))
    else pure charts1
  let charts3 ← if o.date_cols_found ∧ 0 < tbl.length then do
      let c ← o.time_series_chart
      pure (charts2 ++ (if c ≠ "" then [c] else []))
    else pure charts2
  let charts4 ← if o.has_correlations then do
      let c ← o.bar_chart
      pure (charts3 ++ (if c ≠ "" then [c] else []))
    else pure charts3
  let report_url ← o.pdf_report
  pure (analysis, report_url, charts4)

/-- `AgentOrchestrator.execute_data_analysis`
(src/app/services/agent_orchestrator.py lines 289-470). -/
def execute_data_analysis (task_id instruction : String) (o : DataOracles) :
    TaskRec × Except String TaskRec :=
  let task := initTask task_id "data_analysis" none (some instruction)
  match dataBody o with
  | .ok r =>
      let done := { task with
        status := "completed", summary := some r.1, report_url := some r.2.1,
        charts := some r.2.2, task_metadata_set := true,
        completed_at_set := true }
      (done, .ok done)
  | .error e => (commitFailed task e, .error e)

/-- Claim C1: in every pipeline, a step raising after the initial record is
created leads to exactly one terminal commit — status "failed", error equal
to the raised message verbatim, completed_at set — with the error re-raised
to the caller after the commit, the summary and sentiment fields still
unset, and no further pipeline steps run (a failure of the first step makes
the outcome independent of every later oracle). -/
theorem claim_C1_failure_semantics :
    (∀ (task_id query : String) (entity0 : Option String) (o : TextOracles)
        (e : String), textBody entity0 o = .error e →
      execute_text_analysis task_id query entity0 o =
        (commitFailed (initTask task_id "news_insight" (some query) none) e,
         .error e)) ∧
    (∀ (task_id instruction : String) (o : DocOracles) (e : String),
      docBody o = .error e →
      execute_document_analysis task_id instruction o =
        (commitFailed (initTask task_id "document_analysis" none
          (some instruction)) e, .error e)) ∧
    (∀ (task_id instruction : String) (o : DataOracles) (e : String),
      dataBody o = .error e →
      execute_data_analysis task_id instruction o =
        (commitFailed (initTask task_id "data_analysis" none
          (some instruction)) e, .error e)) ∧
    (∀ (t : TaskRec) (e : String),
      (commitFailed t e).status = "failed" ∧
      (commitFailed t e).error = some e ∧
      (commitFailed t e).completed_at_set = true ∧
      (commitFailed t e).summary = t.summary ∧
      (commitFailed t e).sentiment_summary = t.sentiment_summary ∧
      (commitFailed t e).forecast = t.forecast ∧
      (commitFailed t e).charts = t.charts) ∧
    (∀ (tid tt : String) (q i : Option String),
      (initTask tid tt q i).status = "processing" ∧
      (initTask tid tt q i).summary = none ∧
      (initTask tid tt q i).sentiment_summary = none ∧
      (initTask tid tt q i).forecast = none ∧
      (initTask tid tt q i).error = none ∧
      (initTask tid tt q i).completed_at_set = false) ∧
    (∀ (e : String) (entity0 : Option String) (o : TextOracles),
      o.interpret = .error e → textBody entity0 o = .error e) ∧
    (∀ (e : String) (o : DocOracles),
      o.extract_text = .error e → docBody o = .error e) ∧
    (∀ (e : String) (o : DataOracles),
      o.load_data = .error e → dataBody o = .error e) := by
  refine ⟨?_, ?_, ?_, ?_, ?_, ?_, ?_, ?_⟩
  · intro task_id query entity0 o e h
    unfold execute_text_analysis
    rw [h]
  · intro task_id instruction o e h
    unfold execute_document_analysis
    rw [h]
  · intro task_id instruction o e h
    unfold execute_data_analysis
    rw [h]
  · intro t e
    exact ⟨rfl, rfl, rfl, rfl, rfl, rfl, rfl⟩
  · intro tid tt q i
    exact ⟨rfl, rfl, rfl, rfl, rfl, rfl⟩
  · intro e entity0 o h
    unfold textBody
    rw [h]
    rfl
  · intro e o h
    unfold docBody
    rw [h]
    rfl
  · intro e o h
    unfold dataBody
    rw [h]
    rfl

theorem claim_C1_failure_semantics_witness :
    execute_document_analysis "t1" "summarize this"
      ⟨.error "boom", .ok "a", .ok "s", .ok "u"⟩ =
      (commitFailed
        (initTask "t1" "document_analysis" none (some "summarize this"))
        "boom", .error "boom") :=
  claim_C1_failure_semantics.2.1 "t1" "summarize this"
    ⟨.error "boom", .ok "a", .ok "s", .ok "u"⟩ "boom" rfl

end Nexalyze
